import Mathlib

/-!
# Room-rental backend: listing lifecycle, room-type registry, uploads

A shallow embedding of the request handlers of

* controllers/add_room_controller.js  (createRoom, getAllRooms, getRoomById,
  updateRoom, deleteRoom, uploadRoomImage, uploadRoomVideo),
* controllers/room_type_controller.js (createRoomType),
* middleware/uploads.js               (maxImageSize, maxVideoSize, fileFilter),
* models/add_room_model.js, models/room_type_model.js (paths and defaults).

Modelling conventions.

* Request bodies carry JavaScript values (JsVal).  The language-level operations
  the handlers use (truthiness, a || b, x !== undefined, typeof, RegExp.test with
  its ToString coercion, parseInt, String.prototype.trim, Math.ceil) are
  transcribed from their ECMAScript definitions.  Numbers are exact integers; a
  fraction would be truthy and would print with a dot or an exponent, so the
  handlers treat it like a non-zero integer.  Query parameters are strings or
  absent.
* The collections are lists of documents in insertion order.  A handler returns
  the response it sends, the state it leaves behind and the collaborator calls
  it issued, in order.
* The schema validation and casting an ODM performs inside create() and save()
  is a parameter of the model (Odm): a write the ODM refuses rejects the promise,
  which the async wrapper forwards to the error middleware (Response.thrown).  A
  document the ODM accepts is stored with the values the handler handed over.
* The blob store is the directory public/uploads, seen as the list of the file
  names it holds; a media entry of a listing is a plain file name in it.
-/

namespace AppBackend

/-! ## JavaScript values -/

/-- A JSON-shaped JavaScript value.  The constructor undefined stands for an
absent key; obj stands for a plain object, which no handler looks into. -/
inductive JsVal where
  | undefined
  | null
  | bool (b : Bool)
  | num (n : Int)
  | str (s : String)
  | arr (items : List JsVal)
  | obj

namespace JsVal

/-- ToBoolean: undefined, null, false, 0 and the empty string are falsy. -/
def truthy : JsVal → Bool
  | undefined => false
  | null => false
  | bool b => b
  | num n => n != 0
  | str s => s.data != []
  | arr _ => true
  | obj => true

/-- The expression a || b. -/
def or (a b : JsVal) : JsVal := if a.truthy then a else b

/-- The test typeof v === "string". -/
def isString : JsVal → Bool
  | str _ => true
  | _ => false

/-- The test v !== undefined. -/
def isDefined : JsVal → Bool
  | undefined => false
  | _ => true

/-- Drops the zeros at the end of a digit list. -/
def stripTrailingZeros (ds : List Char) : List Char :=
  (ds.reverse.dropWhile (fun c => c == '0')).reverse

/-- Number::toString (radix 10) of a non-negative integer: plain digits below
10^21, exponent form from there on. -/
def natToChars (n : Nat) : List Char :=
  let ds := Nat.toDigits 10 n
  if n < 10 ^ 21 then ds
  else
    match ds with
    | [] => []
    | d :: rest =>
      let frac := stripTrailingZeros rest
      (d :: (if frac.isEmpty then [] else '.' :: frac)) ++ ['e', '+'] ++ Nat.toDigits 10 rest.length

/-- Number::toString (radix 10) of an integer. -/
def intToChars (n : Int) : List Char :=
  if n < 0 then '-' :: natToChars n.natAbs else natToChars n.natAbs

mutual
/-- ToString, as a list of characters. -/
def toChars : JsVal → List Char
  | undefined => "undefined".data
  | null => "null".data
  | bool b => if b then "true".data else "false".data
  | num n => intToChars n
  | str s => s.data
  | arr xs => joinItems xs
  | obj => "[object Object]".data
termination_by structural v => v
/-- Array.prototype.join(","): undefined and null elements print as nothing. -/
def joinItems : List JsVal → List Char
  | [] => []
  | x :: rest =>
    (match x with
      | undefined => []
      | null => []
      | v => toChars v)
    ++ (match rest with
      | [] => []
      | _ => ',' :: joinItems rest)
termination_by structural l => l
end

end JsVal

/-- WhiteSpace and LineTerminator code points, the set that trim() and parseInt
strip. -/
def isWhiteSpace (c : Char) : Bool :=
  let n := c.toNat
  n == 0x09 || n == 0x0A || n == 0x0B || n == 0x0C || n == 0x0D || n == 0x20 ||
  n == 0xA0 || n == 0x1680 || (0x2000 ≤ n && n ≤ 0x200A) || n == 0x2028 ||
  n == 0x2029 || n == 0x202F || n == 0x205F || n == 0x3000 || n == 0xFEFF

/-- String.prototype.trim on a character list. -/
def trimChars (cs : List Char) : List Char :=
  (cs.dropWhile isWhiteSpace).rdropWhile isWhiteSpace

/-- String.prototype.trim. -/
def trim (s : String) : String := ⟨trimChars s.data⟩

/-- The character class [0-9a-fA-F]. -/
def isHexDigit (c : Char) : Bool :=
  ('0' ≤ c && c ≤ '9') || ('a' ≤ c && c ≤ 'f') || ('A' ≤ c && c ≤ 'F')

/-- The match /^[0-9a-fA-F]{24}$/ against a character list. -/
def matchesObjectIdPattern (cs : List Char) : Bool :=
  cs.length == 24 && cs.all isHexDigit

/-- The call /^[0-9a-fA-F]{24}$/.test(v): the argument is converted with ToString
first. -/
def objectIdPatternTest (v : JsVal) : Bool := matchesObjectIdPattern v.toChars

/-- The value of a run of decimal digits. -/
def digitsValue (ds : List Char) : Nat :=
  ds.foldl (fun acc c => 10 * acc + (c.toNat - '0'.toNat)) 0

/-- The call parseInt(s, 10) on a string: leading white space is skipped, one sign
is read, then the longest run of decimal digits; none stands for NaN. -/
def parseIntChars (cs : List Char) : Option Int :=
  let t := cs.dropWhile isWhiteSpace
  let signed : Bool × List Char :=
    match t with
    | '-' :: r => (true, r)
    | '+' :: r => (false, r)
    | r => (false, r)
  let z := signed.2.takeWhile Char.isDigit
  if z.isEmpty then none
  else if signed.1 then some (-(digitsValue z : Int)) else some (digitsValue z : Int)

/-- The call parseInt(q, 10) on a query parameter, which is a string or absent;
an absent parameter is undefined and parses as the text "undefined". -/
def parseInt (q : Option String) : Option Int :=
  match q with
  | none => parseIntChars (JsVal.toChars JsVal.undefined)
  | some s => parseIntChars s.data

/-- The expression n || d for a number n: NaN and 0 are falsy. -/
def numOr (n : Option Int) (d : Int) : Int :=
  match n with
  | none => d
  | some k => if k = 0 then d else k

/-- The value Math.ceil(a / b) for integers a and b with b nonzero, computed
with floor division: the ceiling of a / b is minus the floor of (-a) / b. -/
def mathCeilDiv (a b : Int) : Int := -(Int.fdiv (-a) b)

/-! ## Documents -/

/-- An ObjectId, written as its hexadecimal string (what toString() returns).
Route parameters and user ids are well-formed ids. -/
abbrev ObjectId := String

/-- A document of the AddRoom collection (models/add_room_model.js).  The paths
hold the values the handlers assign. -/
structure AddRoom where
  _id : ObjectId
  ownerId : ObjectId
  ownerContactNumber : JsVal
  roomTitle : JsVal
  monthlyPrice : JsVal
  location : JsVal
  roomType : JsVal
  description : JsVal
  images : JsVal
  videos : JsVal
  isAvailable : JsVal
  approvalStatus : JsVal
  createdAt : Nat

/-- The object handed to AddRoom.create: one entry per schema path, undefined for
a key that is left out. -/
structure RoomInput where
  ownerId : ObjectId
  ownerContactNumber : JsVal
  roomTitle : JsVal
  monthlyPrice : JsVal
  location : JsVal
  roomType : JsVal
  description : JsVal
  images : JsVal
  videos : JsVal
  isAvailable : JsVal
  approvalStatus : JsVal

/-- A document of the RoomType collection (models/room_type_model.js). -/
structure RoomType where
  _id : ObjectId
  typeName : String
  status : JsVal
  createdAt : Nat

/-- The object handed to RoomType.create. -/
structure RoomTypeInput where
  typeName : String
  status : JsVal

/-- Modelled from the spec: the user collection the owner reference points to
(the user model is not among the sources); the paths are the ones populate
selects, name and email. -/
structure User where
  _id : ObjectId
  name : String
  email : String

/-- A listing with its owner and room-type references resolved by populate; a
reference that resolves to nothing is null. -/
structure PopulatedRoom where
  doc : AddRoom
  owner : Option User
  roomTypeDoc : Option RoomType

/-- The keys the listing handlers read from req.body; undefined when absent. -/
structure Body where
  ownerId : JsVal
  ownerContactNumber : JsVal
  roomTitle : JsVal
  monthlyPrice : JsVal
  location : JsVal
  roomType : JsVal
  description : JsVal
  images : JsVal
  videos : JsVal
  isAvailable : JsVal
  approvalStatus : JsVal

/-- The empty body: every key absent. -/
def Body.empty : Body :=
  ⟨.undefined, .undefined, .undefined, .undefined, .undefined, .undefined,
   .undefined, .undefined, .undefined, .undefined, .undefined⟩

/-- The keys createRoomType reads from req.body. -/
structure RoomTypeBody where
  typeName : JsVal
  status : JsVal

/-- The keys getAllRooms reads from req.query; each is a string or absent. -/
structure Query where
  page : Option String
  limit : Option String
  ownerId : Option String
  isAvailable : Option String
  approvalStatus : Option String

/-- The filter object getAllRooms builds; none for a key that is not set. -/
structure Filter where
  ownerId : Option String
  isAvailable : Option Bool
  approvalStatus : Option String

/-- The file the upload middleware stored and put in req.file. -/
structure FileMeta where
  filename : String
  size : Nat

/-- The persistent state: the two collections, the user collection and the names
of the files in public/uploads. -/
structure Db where
  rooms : List AddRoom
  roomTypes : List RoomType
  users : List User
  uploads : List String

/-- The acceptance test of the ODM for a document that is about to be written
(schema casting and validators). -/
structure Odm where
  validRoom : AddRoom → Bool
  validRoomType : RoomType → Bool

/-- A call a handler makes on one of its collaborators. -/
inductive Call where
  | roomTypeFindOne (typeName : JsVal)
  | roomTypeCreate (doc : RoomTypeInput)
  | addRoomCreate (doc : RoomInput)
  | addRoomFindById (id : ObjectId)
  | addRoomSave (doc : AddRoom)
  | addRoomFindByIdAndDelete (id : ObjectId)
  | addRoomCountDocuments (filter : Filter)
  | addRoomFind (filter : Filter) (skip limit : Int)
  | existsSync (file : String)
  | unlinkSync (file : String)

/-- The JSON payloads the handlers send. -/
inductive Payload where
  | failure (message : String)
  | message (message : String)
  | room (data : AddRoom)
  | populated (data : PopulatedRoom)
  | page (count total : Nat) (page pages : Int) (data : List PopulatedRoom)
  | done (message : String)
  | file (data : String) (message : String)
  | roomType (data : RoomType)

/-- What a handler does with the request: it sends a status and a payload, or its
promise rejects and the error goes to the error middleware. -/
inductive Response where
  | json (status : Nat) (payload : Payload)
  | thrown (error : String)

/-- The HTTP status of a response the handler itself sent. -/
def Response.status : Response → Option Nat
  | .json s _ => some s
  | .thrown _ => none

/-- The outcome of a handler: response, state afterwards, collaborator calls. -/
structure Result where
  response : Response
  db : Db
  calls : List Call

/-! ## The collections -/

/-- The query RoomType.findOne by typeName v: the first document whose name is
exactly the string v; a value that is not a string equals no stored name. -/
def RoomType.findOne (types : List RoomType) (v : JsVal) : Option RoomType :=
  match v with
  | .str s => types.find? (fun t => t.typeName == s)
  | _ => none

/-- The write RoomType.create(input): the schema default fills an undefined
status, the ODM validates, the unique index on typeName refuses a second
document of the same name. -/
def RoomType.create (odm : Odm) (types : List RoomType) (input : RoomTypeInput)
    (fresh : ObjectId) (now : Nat) : Except String (RoomType × List RoomType) :=
  let doc : RoomType :=
    { _id := fresh
      typeName := input.typeName
      status := if input.status.isDefined then input.status else .str "active"
      createdAt := now }
  if !odm.validRoomType doc then .error "ValidationError"
  else if types.any (fun t => t.typeName == doc.typeName) then .error "E11000 duplicate key"
  else .ok (doc, types ++ [doc])

/-- The document new AddRoom(input): the schema defaults fill an undefined
isAvailable (true) and an undefined approvalStatus ("pending"). -/
def AddRoom.fromInput (input : RoomInput) (fresh : ObjectId) (now : Nat) : AddRoom :=
  { _id := fresh
    ownerId := input.ownerId
    ownerContactNumber := input.ownerContactNumber
    roomTitle := input.roomTitle
    monthlyPrice := input.monthlyPrice
    location := input.location
    roomType := input.roomType
    description := input.description
    images := input.images
    videos := input.videos
    isAvailable := if input.isAvailable.isDefined then input.isAvailable else .bool true
    approvalStatus :=
      if input.approvalStatus.isDefined then input.approvalStatus else .str "pending"
    createdAt := now }

/-- The write AddRoom.create(input): the document is built with the schema
defaults, the ODM validates, the document is appended. -/
def AddRoom.create (odm : Odm) (rooms : List AddRoom) (input : RoomInput)
    (fresh : ObjectId) (now : Nat) : Except String (AddRoom × List AddRoom) :=
  let doc := AddRoom.fromInput input fresh now
  if odm.validRoom doc then .ok (doc, rooms ++ [doc]) else .error "ValidationError"

/-- The query AddRoom.findById(id). -/
def AddRoom.findById (rooms : List AddRoom) (id : ObjectId) : Option AddRoom :=
  rooms.find? (fun r => r._id == id)

/-- The stored collection after room.save(): the first document with the id of
room is replaced by room. -/
def AddRoom.replace (room : AddRoom) : List AddRoom → List AddRoom
  | [] => []
  | r :: rest => if r._id == room._id then room :: rest else r :: AddRoom.replace room rest

/-- The write room.save(): the ODM validates, then the stored document is
replaced. -/
def AddRoom.save (odm : Odm) (rooms : List AddRoom) (room : AddRoom) :
    Except String (List AddRoom) :=
  if odm.validRoom room then .ok (AddRoom.replace room rooms) else .error "ValidationError"

/-- Whether a document satisfies the equality filter of getAllRooms. -/
def Filter.matches (f : Filter) (r : AddRoom) : Bool :=
  (match f.ownerId with
    | none => true
    | some o => r.ownerId == o)
  && (match f.isAvailable with
    | none => true
    | some b =>
      match r.isAvailable with
      | .bool c => c == b
      | _ => false)
  && (match f.approvalStatus with
    | none => true
    | some a =>
      match r.approvalStatus with
      | .str t => t == a
      | _ => false)

/-- The query AddRoom.countDocuments(filter). -/
def AddRoom.countDocuments (rooms : List AddRoom) (f : Filter) : Nat :=
  (rooms.filter f.matches).length

/-- The order of the sort on createdAt descending: newest first. -/
def newestFirst (a b : AddRoom) : Prop := b.createdAt ≤ a.createdAt

instance : DecidableRel newestFirst := fun a b => Nat.decLe b.createdAt a.createdAt

/-- Any two listings are comparable by creation time. -/
instance : IsTotal AddRoom newestFirst := ⟨fun a b => Nat.le_total b.createdAt a.createdAt⟩

/-- The order newest first is transitive. -/
instance : IsTrans AddRoom newestFirst :=
  ⟨fun _ _ _ hab hbc => Nat.le_trans hbc hab⟩

/-- The cursor step limit(n): at most n documents, a negative n standing for its
absolute value and 0 for no limit. -/
def applyLimit (n : Int) (xs : List AddRoom) : List AddRoom :=
  if n = 0 then xs else xs.take n.natAbs

/-- The query AddRoom.find(filter), sorted by createdAt descending, then
skip(skip) and limit(limit);
the database refuses a negative skip. -/
def AddRoom.find (rooms : List AddRoom) (f : Filter) (skip limit : Int) :
    Except String (List AddRoom) :=
  if skip < 0 then .error "skip value must be non-negative"
  else .ok (applyLimit limit (((rooms.filter f.matches).insertionSort newestFirst).drop skip.toNat))

/-- The join populate("ownerId", "name email").populate("roomType", "typeName"). -/
def populate (db : Db) (r : AddRoom) : PopulatedRoom :=
  { doc := r
    owner := db.users.find? (fun u => u._id == r.ownerId)
    roomTypeDoc :=
      match r.roomType with
      | .str id => db.roomTypes.find? (fun t => t._id == id)
      | _ => none }

/-! ## controllers/add_room_controller.js -/

/-- The object createRoom hands to AddRoom.create: the owner is req.user._id, the
room type is the resolved one, isAvailable and approvalStatus are not passed. -/
def createRoom.input (user : ObjectId) (body : Body) (roomTypeId : JsVal) : RoomInput :=
  { ownerId := user
    ownerContactNumber := body.ownerContactNumber
    roomTitle := body.roomTitle
    monthlyPrice := body.monthlyPrice
    location := body.location
    roomType := roomTypeId
    description := body.description
    images := body.images
    videos := body.videos
    isAvailable := .undefined
    approvalStatus := .undefined }

/-- The tail of createRoom: AddRoom.create, then the 201 response. -/
def createRoom.persist (odm : Odm) (db : Db) (user : ObjectId) (body : Body)
    (roomTypeId : JsVal) (fresh : ObjectId) (now : Nat) (calls : List Call) : Result :=
  let input := createRoom.input user body roomTypeId
  match AddRoom.create odm db.rooms input fresh now with
  | .error e => ⟨.thrown e, db, calls ++ [.addRoomCreate input]⟩
  | .ok (room, rooms) =>
    ⟨.json 201 (.room room), { db with rooms := rooms }, calls ++ [.addRoomCreate input]⟩

/-- The four required keys of createRoom are all truthy. -/
def requiredPresent (body : Body) : Prop :=
  body.roomTitle.truthy = true ∧ body.monthlyPrice.truthy = true
    ∧ body.location.truthy = true ∧ body.roomType.truthy = true

/-- The handler createRoom (POST /api/v1/rooms); user is req.user._id, fresh and
now are the id and the time stamp the new document gets. -/
def createRoom (odm : Odm) (db : Db) (user : ObjectId) (body : Body)
    (fresh : ObjectId) (now : Nat) : Result :=
  if !body.roomTitle.truthy || !body.monthlyPrice.truthy || !body.location.truthy
      || !body.roomType.truthy then
    ⟨.json 400 (.failure
      "Please provide all required fields: roomTitle, monthlyPrice, location, roomType"),
      db, []⟩
  else
    let isValidObjectId := objectIdPatternTest body.roomType
    if !isValidObjectId then
      match RoomType.findOne db.roomTypes body.roomType with
      | none =>
        ⟨.json 400 (.failure ("Room type \"" ++ String.mk body.roomType.toChars
          ++ "\" not found. Please use a valid room type name or ObjectId.")),
          db, [.roomTypeFindOne body.roomType]⟩
      | some foundRoomType =>
        createRoom.persist odm db user body (.str foundRoomType._id) fresh now
          [.roomTypeFindOne body.roomType]
    else
      createRoom.persist odm db user body body.roomType fresh now []

/-- The filter getAllRooms builds from the query string. -/
def buildFilter (q : Query) : Filter :=
  { ownerId := q.ownerId.filter (fun s => s.data != [])
    isAvailable := q.isAvailable.map (fun s => s == "true")
    approvalStatus := q.approvalStatus.filter (fun s => s.data != []) }

/-- The page number getAllRooms uses: parseInt(req.query.page, 10) || 1. -/
def pageOf (q : Query) : Int := numOr (parseInt q.page) 1

/-- The limit getAllRooms uses: parseInt(req.query.limit, 10) || 10. -/
def limitOf (q : Query) : Int := numOr (parseInt q.limit) 10

/-- The skip offset getAllRooms uses: (page - 1) * limit. -/
def skipOf (q : Query) : Int := (pageOf q - 1) * limitOf q

/-- The handler getAllRooms (GET /api/v1/rooms). -/
def getAllRooms (db : Db) (q : Query) : Result :=
  let page := pageOf q
  let limit := limitOf q
  let skip := skipOf q
  let filter := buildFilter q
  let total := AddRoom.countDocuments db.rooms filter
  match AddRoom.find db.rooms filter skip limit with
  | .error e =>
    ⟨.thrown e, db, [.addRoomCountDocuments filter, .addRoomFind filter skip limit]⟩
  | .ok rooms =>
    ⟨.json 200 (.page rooms.length total page (mathCeilDiv total limit)
        (rooms.map (populate db))),
      db, [.addRoomCountDocuments filter, .addRoomFind filter skip limit]⟩

/-- The assignments of updateRoom on the loaded document. -/
def mergeBody (room : AddRoom) (body : Body) : AddRoom :=
  { room with
    ownerContactNumber := body.ownerContactNumber.or room.ownerContactNumber
    roomTitle := body.roomTitle.or room.roomTitle
    monthlyPrice := body.monthlyPrice.or room.monthlyPrice
    location := body.location.or room.location
    roomType := body.roomType.or room.roomType
    description := body.description.or room.description
    images := body.images.or room.images
    videos := body.videos.or room.videos
    isAvailable := if body.isAvailable.isDefined then body.isAvailable else room.isAvailable
    approvalStatus := body.approvalStatus.or room.approvalStatus }

/-- The handler updateRoom (PUT /api/v1/rooms/:id); user is req.user._id. -/
def updateRoom (odm : Odm) (db : Db) (id : ObjectId) (user : ObjectId) (body : Body) :
    Result :=
  match AddRoom.findById db.rooms id with
  | none => ⟨.json 404 (.message "Room not found"), db, [.addRoomFindById id]⟩
  | some room =>
    if room.ownerId != user then
      ⟨.json 403 (.message "Not authorized to update this room"), db, [.addRoomFindById id]⟩
    else
      let room := mergeBody room body
      match AddRoom.save odm db.rooms room with
      | .error e => ⟨.thrown e, db, [.addRoomFindById id, .addRoomSave room]⟩
      | .ok rooms =>
        ⟨.json 200 (.room room), { db with rooms := rooms },
          [.addRoomFindById id, .addRoomSave room]⟩

/-- The environment variable MAX_FILE_UPLOAD as the upload handlers use it: its
text, and the number the comparison req.file.size > text converts the text to
(none for NaN; a fraction may be rounded down, which compares alike against a
whole size).  An unset variable is undefined: text "undefined", number NaN. -/
structure MaxFileUpload where
  text : String
  number : Option Int

/-- The comparison req.file.size > process.env.MAX_FILE_UPLOAD; it is false when
the right-hand side is NaN. -/
def exceedsMaxFileUpload (size : Nat) (env : MaxFileUpload) : Bool :=
  match env.number with
  | none => false
  | some m => decide (m < (size : Int))

/-- The handler uploadRoomImage (POST /api/v1/rooms/upload-image). -/
def uploadRoomImage (env : MaxFileUpload) (file : Option FileMeta) : Response :=
  match file with
  | none => .json 400 (.message "Please upload an image file")
  | some f =>
    if exceedsMaxFileUpload f.size env then
      .json 400 (.message ("Please upload an image smaller than " ++ env.text ++ " bytes"))
    else
      .json 200 (.file f.filename "Image uploaded successfully")

/-- The handler uploadRoomVideo (POST /api/v1/rooms/upload-video). -/
def uploadRoomVideo (env : MaxFileUpload) (file : Option FileMeta) : Response :=
  match file with
  | none => .json 400 (.message "Please upload a video file")
  | some f =>
    if exceedsMaxFileUpload f.size env then
      .json 400 (.message ("Please upload a video smaller than " ++ env.text ++ " bytes"))
    else
      .json 200 (.file f.filename "Video uploaded successfully")

/-! ## middleware/uploads.js -/

/-- The size limit of uploadImage: 2MB. -/
def maxImageSize : Nat := 2 * 1024 * 1024

/-- The size limit of uploadVideo: 50MB. -/
def maxVideoSize : Nat := 50 * 1024 * 1024

/-- A file part of a multipart request, before the middleware stores it. -/
structure FilePart where
  fieldname : String
  originalname : String
  size : Nat

/-- Whether a name ends in one of the given extensions, letter case ignored: the
regular expressions imageTypes and videoTypes. -/
def endsWithAny (exts : List String) (name : String) : Bool :=
  exts.any (fun e => e.data.isSuffixOf (name.data.map Char.toLower))

/-- The regular expression imageTypes: a name ending in .jpg, .jpeg or .png. -/
def imageTypes (name : String) : Bool := endsWithAny [".jpg", ".jpeg", ".png"] name

/-- The regular expression videoTypes: a name ending in .mp4, .mov or .avi. -/
def videoTypes (name : String) : Bool := endsWithAny [".mp4", ".mov", ".avi"] name

/-- The callback fileFilter: none when the file is let through, the error
message otherwise. -/
def fileFilter (file : FilePart) : Option String :=
  if (file.fieldname == "profilePicture" || file.fieldname == "images")
      && !imageTypes file.originalname then
    some "Only image files are allowed"
  else if file.fieldname == "videos" && !videoTypes file.originalname then
    some "Only video files are allowed"
  else none

/-- The call path.extname on a file name: from the last dot on, unless there is
no dot or the name starts with its only dot. -/
def extname (name : List Char) : List Char :=
  let base := (name.reverse.takeWhile (fun c => c != '/')).reverse
  let ext := (base.reverse.takeWhile (fun c => c != '.')).reverse
  if ext.length + 1 < base.length then '.' :: ext else []

/-- The callback storage.filename: prefix, time stamp, extension. -/
def storageFilename (file : FilePart) (now : Nat) : String :=
  let stem :=
    if file.fieldname == "profilePicture" then "pro-pic"
    else if file.fieldname == "images" then "room-img"
    else "room-vid"
  stem ++ "-" ++ String.mk (Nat.toDigits 10 now) ++ String.mk (extname file.originalname.data)

/-- The middleware multer(...).single(field) with limits.fileSize = fileSize: a
request without a file part goes on with req.file undefined; a part in another
field, a part fileFilter refuses and a part larger than fileSize end the request
with an error; otherwise the part is stored and described in req.file. -/
def multerSingle (fileSize : Nat) (field : String) (part : Option FilePart) (now : Nat) :
    Except String (Option FileMeta) :=
  match part with
  | none => .ok none
  | some file =>
    if file.fieldname != field then .error "LIMIT_UNEXPECTED_FILE"
    else
      match fileFilter file with
      | some e => .error e
      | none =>
        if fileSize < file.size then .error "LIMIT_FILE_SIZE"
        else .ok (some ⟨storageFilename file now, file.size⟩)

/-- The middleware uploadImage.single("images"). -/
def uploadImage (part : Option FilePart) (now : Nat) : Except String (Option FileMeta) :=
  multerSingle maxImageSize "images" part now

/-- The middleware uploadVideo.single("videos"). -/
def uploadVideo (part : Option FilePart) (now : Nat) : Except String (Option FileMeta) :=
  multerSingle maxVideoSize "videos" part now

/-- The route POST /upload-image behind the authentication: uploadImage, then
uploadRoomImage. -/
def postUploadImage (env : MaxFileUpload) (part : Option FilePart) (now : Nat) : Response :=
  match uploadImage part now with
  | .error e => .thrown e
  | .ok file => uploadRoomImage env file

/-- The route POST /upload-video behind the authentication: uploadVideo, then
uploadRoomVideo. -/
def postUploadVideo (env : MaxFileUpload) (part : Option FilePart) (now : Nat) : Response :=
  match uploadVideo part now with
  | .error e => .thrown e
  | .ok file => uploadRoomVideo env file

/-! ## controllers/room_type_controller.js -/

/-- The handler createRoomType (POST /api/v1/roomTypes). -/
def createRoomType (odm : Odm) (db : Db) (body : RoomTypeBody) (fresh : ObjectId)
    (now : Nat) : Result :=
  if !body.typeName.truthy || !body.typeName.isString then
    ⟨.json 400 (.failure "Room type name is required"), db, []⟩
  else
    match body.typeName with
    | .str typeName =>
      let input : RoomTypeInput :=
        { typeName := trim typeName, status := body.status.or (.str "active") }
      match RoomType.create odm db.roomTypes input fresh now with
      | .error e => ⟨.thrown e, db, [.roomTypeCreate input]⟩
      | .ok (roomType, roomTypes) =>
        ⟨.json 201 (.roomType roomType), { db with roomTypes := roomTypes },
          [.roomTypeCreate input]⟩
    | _ => ⟨.thrown "TypeError", db, []⟩

/-! ## Sample data -/

/-- The id of the first sample user. -/
def ownerA : ObjectId := "64a1f0c2e4b0a1b2c3d4e5f1"

/-- The id of a second user. -/
def ownerB : ObjectId := "64a1f0c2e4b0a1b2c3d4e5f2"

/-- The id of the sample listing. -/
def room1 : ObjectId := "64b2a7d1e4b0a1b2c3d4e601"

/-- The id of a second listing. -/
def room2 : ObjectId := "64b2a7d1e4b0a1b2c3d4e602"

/-- An id under which no listing is stored. -/
def room9 : ObjectId := "64b2a7d1e4b0a1b2c3d4e609"

/-- The id of the room type Studio. -/
def studioId : ObjectId := "507f1f77bcf86cd799439011"

/-- The id of a second room type. -/
def type2 : ObjectId := "507f1f77bcf86cd799439012"

/-- An ODM that accepts every document. -/
def Odm.lenient : Odm := ⟨fun _ => true, fun _ => true⟩

/-- A listing owned by user ownerA with one image and one video. -/
def sampleRoom : AddRoom :=
  { _id := room1
    ownerId := ownerA
    ownerContactNumber := .str "9800000000"
    roomTitle := .str "Sunny room"
    monthlyPrice := .num 12000
    location := .str "Kathmandu"
    roomType := .str studioId
    description := .undefined
    images := .arr [.str "room-img-1.png"]
    videos := .arr [.str "room-vid-1.mp4"]
    isAvailable := .bool true
    approvalStatus := .str "pending"
    createdAt := 5 }

/-- A state with the sample listing, the room type Studio and one of the two media
files of the listing in public/uploads. -/
def sampleDb : Db :=
  { rooms := [sampleRoom]
    roomTypes := [⟨studioId, "Studio", .str "active", 1⟩]
    users := [⟨ownerA, "Asha", "asha@example.com"⟩]
    uploads := ["room-img-1.png", "other.png"] }

/-- A create body with the four required fields and a room type given by name. -/
def sampleBody : Body :=
  { Body.empty with
    roomTitle := .str "Sunny room"
    monthlyPrice := .num 12000
    location := .str "Kathmandu"
    roomType := .str "Studio" }

/-- The empty query string. -/
def Query.empty : Query := ⟨none, none, none, none, none⟩

/-- C1: an update by a caller who is not the stored owner is answered with 403 and
an update of an id without a stored listing with 404; in both cases the whole
state, and so every field of every listing, is unchanged, whatever the body. -/
theorem updateRoom_refuses_stranger_and_missing (odm : Odm) (db : Db) (id caller : ObjectId)
    (body : Body) :
    (∀ L, AddRoom.findById db.rooms id = some L → caller ≠ L.ownerId →
      updateRoom odm db id caller body
        = ⟨.json 403 (.message "Not authorized to update this room"), db,
            [.addRoomFindById id]⟩) ∧
    (AddRoom.findById db.rooms id = none →
      updateRoom odm db id caller body
        = ⟨.json 404 (.message "Room not found"), db, [.addRoomFindById id]⟩) := by
  refine ⟨?_, ?_⟩
  · intro L hL hne
    have hne2 : (L.ownerId != caller) = true := by
      simp only [bne_iff_ne, ne_eq]
      exact fun h => hne h.symm
    simp [updateRoom, hL, hne2]
  · intro hnone
    simp [updateRoom, hnone]

/-- C1, on the sample listing: user ownerB is refused, and id room9 is not found. -/
theorem updateRoom_refuses_stranger_and_missing_witness :
    updateRoom Odm.lenient sampleDb room1 ownerB sampleBody
      = ⟨.json 403 (.message "Not authorized to update this room"), sampleDb,
          [.addRoomFindById room1]⟩ ∧
    updateRoom Odm.lenient sampleDb room9 ownerB sampleBody
      = ⟨.json 404 (.message "Room not found"), sampleDb, [.addRoomFindById room9]⟩ :=
  ⟨(updateRoom_refuses_stranger_and_missing Odm.lenient sampleDb room1 ownerB sampleBody).1
      sampleRoom rfl (by decide),
   (updateRoom_refuses_stranger_and_missing Odm.lenient sampleDb room9 ownerB sampleBody).2
      rfl⟩

/-- C4: a create call in which roomTitle, monthlyPrice, location or roomType is
missing is answered with 400; no collaborator is called (neither the room-type
registry nor the listing store) and the state after the call is the state before
it. -/
theorem createRoom_missing_required_field (odm : Odm) (db : Db) (user : ObjectId) (body : Body)
    (fresh : ObjectId) (now : Nat)
    (h : body.roomTitle = .undefined ∨ body.monthlyPrice = .undefined
      ∨ body.location = .undefined ∨ body.roomType = .undefined) :
    createRoom odm db user body fresh now
      = ⟨.json 400 (.failure
          "Please provide all required fields: roomTitle, monthlyPrice, location, roomType"),
          db, []⟩ := by
  rcases h with h | h | h | h <;> simp [createRoom, h, JsVal.truthy]

/-- C4, on a body that lacks the location. -/
theorem createRoom_missing_required_field_witness :
    createRoom Odm.lenient sampleDb ownerA { sampleBody with location := .undefined } room2 7
      = ⟨.json 400 (.failure
          "Please provide all required fields: roomTitle, monthlyPrice, location, roomType"),
          sampleDb, []⟩ :=
  createRoom_missing_required_field Odm.lenient sampleDb ownerA
    { sampleBody with location := .undefined } room2 7 (Or.inr (Or.inr (Or.inl rfl)))

/-- The outcome of the tail of createRoom, by the verdict of the ODM. -/
theorem createRoom_persist_eq (odm : Odm) (db : Db) (user : ObjectId) (body : Body)
    (roomTypeId : JsVal) (fresh : ObjectId) (now : Nat) (calls : List Call) :
    createRoom.persist odm db user body roomTypeId fresh now calls
      = if odm.validRoom (AddRoom.fromInput (createRoom.input user body roomTypeId) fresh now)
        then
          ⟨.json 201 (.room (AddRoom.fromInput (createRoom.input user body roomTypeId) fresh now)),
            { db with rooms := db.rooms
                ++ [AddRoom.fromInput (createRoom.input user body roomTypeId) fresh now] },
            calls ++ [.addRoomCreate (createRoom.input user body roomTypeId)]⟩
        else
          ⟨.thrown "ValidationError", db,
            calls ++ [.addRoomCreate (createRoom.input user body roomTypeId)]⟩ := by
  unfold createRoom.persist AddRoom.create
  by_cases hv : odm.validRoom
      (AddRoom.fromInput (createRoom.input user body roomTypeId) fresh now) = true
  · simp [hv]
  · simp [hv]

/-- A 201 answer of the tail of createRoom carries the document built from the
input, and that document is the one appended. -/
theorem createRoom_persist_created (odm : Odm) (db : Db) (user : ObjectId) (body : Body)
    (roomTypeId : JsVal) (fresh : ObjectId) (now : Nat) (calls : List Call) (room : AddRoom)
    (h : (createRoom.persist odm db user body roomTypeId fresh now calls).response
      = .json 201 (.room room)) :
    room = AddRoom.fromInput (createRoom.input user body roomTypeId) fresh now
    ∧ (createRoom.persist odm db user body roomTypeId fresh now calls).db.rooms
      = db.rooms ++ [room] := by
  rw [createRoom_persist_eq] at h ⊢
  by_cases hv : odm.validRoom
      (AddRoom.fromInput (createRoom.input user body roomTypeId) fresh now) = true
  · simp only [hv, if_true] at h ⊢
    injection h with _ h2
    injection h2 with h3
    subst h3
    exact ⟨rfl, rfl⟩
  · simp only [hv] at h
    cases h

/-- The branch of createRoom for a falsy required key. -/
theorem createRoom_of_falsy (odm : Odm) (db : Db) (user : ObjectId) (body : Body)
    (fresh : ObjectId) (now : Nat) (h : ¬ requiredPresent body) :
    createRoom odm db user body fresh now
      = ⟨.json 400 (.failure
          "Please provide all required fields: roomTitle, monthlyPrice, location, roomType"),
          db, []⟩ := by
  unfold requiredPresent at h
  unfold createRoom
  rw [if_pos]
  revert h
  cases body.roomTitle.truthy <;> cases body.monthlyPrice.truthy
    <;> cases body.location.truthy <;> cases body.roomType.truthy <;> simp

/-- The branch of createRoom for a room type that passes the ObjectId pattern. -/
theorem createRoom_of_objectId (odm : Odm) (db : Db) (user : ObjectId) (body : Body)
    (fresh : ObjectId) (now : Nat) (h : requiredPresent body)
    (ht : objectIdPatternTest body.roomType = true) :
    createRoom odm db user body fresh now
      = createRoom.persist odm db user body body.roomType fresh now [] := by
  obtain ⟨h1, h2, h3, h4⟩ := h
  simp [createRoom, h1, h2, h3, h4, ht]

/-- The branch of createRoom for a room type found by name. -/
theorem createRoom_of_found (odm : Odm) (db : Db) (user : ObjectId) (body : Body)
    (fresh : ObjectId) (now : Nat) (h : requiredPresent body)
    (ht : objectIdPatternTest body.roomType = false) (rt : RoomType)
    (hf : RoomType.findOne db.roomTypes body.roomType = some rt) :
    createRoom odm db user body fresh now
      = createRoom.persist odm db user body (.str rt._id) fresh now
          [.roomTypeFindOne body.roomType] := by
  obtain ⟨h1, h2, h3, h4⟩ := h
  simp [createRoom, h1, h2, h3, h4, ht, hf]

/-- The branch of createRoom for a room type that no registry entry is named
after. -/
theorem createRoom_of_unknown (odm : Odm) (db : Db) (user : ObjectId) (body : Body)
    (fresh : ObjectId) (now : Nat) (h : requiredPresent body)
    (ht : objectIdPatternTest body.roomType = false)
    (hf : RoomType.findOne db.roomTypes body.roomType = none) :
    createRoom odm db user body fresh now
      = ⟨.json 400 (.failure ("Room type \"" ++ String.mk body.roomType.toChars
          ++ "\" not found. Please use a valid room type name or ObjectId.")),
          db, [.roomTypeFindOne body.roomType]⟩ := by
  obtain ⟨h1, h2, h3, h4⟩ := h
  simp [createRoom, h1, h2, h3, h4, ht, hf]

/-- C5: when createRoom answers 201 with a listing, that listing is the one
appended to the store, its owner is the authenticated caller, its approvalStatus
is "pending" and its isAvailable is true; and the whole outcome of a create call
is the same for two bodies that agree on every key other than ownerId,
approvalStatus and isAvailable. -/
theorem createRoom_owner_and_defaults (odm : Odm) (db : Db) (user : ObjectId) (body : Body)
    (fresh : ObjectId) (now : Nat) (room : AddRoom)
    (h : (createRoom odm db user body fresh now).response = .json 201 (.room room)) :
    room.ownerId = user ∧ room.approvalStatus = .str "pending" ∧ room.isAvailable = .bool true
    ∧ (createRoom odm db user body fresh now).db.rooms = db.rooms ++ [room]
    ∧ ∀ other : Body,
        other.ownerContactNumber = body.ownerContactNumber → other.roomTitle = body.roomTitle →
        other.monthlyPrice = body.monthlyPrice → other.location = body.location →
        other.roomType = body.roomType → other.description = body.description →
        other.images = body.images → other.videos = body.videos →
        createRoom odm db user other fresh now = createRoom odm db user body fresh now := by
  have key : ∃ rt calls, createRoom odm db user body fresh now
      = createRoom.persist odm db user body rt fresh now calls := by
    by_cases hreq : requiredPresent body
    · cases ht : objectIdPatternTest body.roomType
      · cases hf : RoomType.findOne db.roomTypes body.roomType with
        | none =>
          rw [createRoom_of_unknown odm db user body fresh now hreq ht hf] at h
          cases h
        | some rt => exact ⟨_, _, createRoom_of_found odm db user body fresh now hreq ht rt hf⟩
      · exact ⟨_, _, createRoom_of_objectId odm db user body fresh now hreq ht⟩
    · rw [createRoom_of_falsy odm db user body fresh now hreq] at h
      cases h
  obtain ⟨rt, calls, hk⟩ := key
  have h2 := h
  rw [hk] at h2
  obtain ⟨hroom, hrooms⟩ := createRoom_persist_created odm db user body rt fresh now calls room h2
  refine ⟨?_, ?_, ?_, ?_, ?_⟩
  · rw [hroom]; rfl
  · rw [hroom]; rfl
  · rw [hroom]; rfl
  · rw [hk]; exact hrooms
  · intro other h1 h2 h3 h4 h5 h6 h7 h8
    simp only [createRoom, createRoom.persist, createRoom.input, h1, h2, h3, h4, h5, h6, h7, h8]

/-- C5, on a create call whose body tries to set the owner, the approval status
and the availability. -/
theorem createRoom_owner_and_defaults_witness :
    (AddRoom.fromInput (createRoom.input ownerA sampleBody (.str "507f1f77bcf86cd799439011"))
        room2 7).ownerId = ownerA
    ∧ (createRoom Odm.lenient sampleDb ownerA
        { sampleBody with
          ownerId := .str ownerB, approvalStatus := .str "approved", isAvailable := .bool false }
        room2 7).db.rooms
      = sampleDb.rooms
        ++ [AddRoom.fromInput (createRoom.input ownerA sampleBody (.str "507f1f77bcf86cd799439011"))
              room2 7] :=
  have h := createRoom_owner_and_defaults Odm.lenient sampleDb ownerA
    { sampleBody with
      ownerId := .str ownerB, approvalStatus := .str "approved", isAvailable := .bool false }
    room2 7
    (AddRoom.fromInput (createRoom.input ownerA sampleBody (.str "507f1f77bcf86cd799439011")) room2 7)
    rfl
  ⟨h.1, h.2.2.2.1⟩

/-- C7, refuted as stated: the page parameter "-3" parses to -3, which is truthy,
so the page number used is -3 and the skip offset is computed from it: with the
default limit it is -40, and the query is refused. -/
theorem getAllRooms_negative_page_counterexample :
    pageOf { Query.empty with page := some "-3" } = -3
    ∧ ¬ (1 ≤ pageOf { Query.empty with page := some "-3" })
    ∧ skipOf { Query.empty with page := some "-3" } = -40
    ∧ getAllRooms sampleDb { Query.empty with page := some "-3" }
      = ⟨.thrown "skip value must be non-negative", sampleDb,
          [.addRoomCountDocuments ⟨none, none, none⟩, .addRoomFind ⟨none, none, none⟩ (-40) 10]⟩ := by
  refine ⟨by decide, by decide, by decide, rfl⟩

/-- C7, amended: the page number getAllRooms uses is 1 when the page parameter is
absent, does not parse or parses to 0, and is the parsed integer otherwise; so it
is at least 1 unless the parameter parses to a negative integer, which is used as
it is.  The limit used is 10 when the limit parameter is absent, does not parse
or parses to 0, and is the parsed integer otherwise.  The skip offset handed to
the query is (page - 1) * limit for these two numbers. -/
theorem getAllRooms_page_and_limit_used (db : Db) (q : Query) :
    (q.page = none → pageOf q = 1)
    ∧ (parseInt q.page = none → pageOf q = 1)
    ∧ (parseInt q.page = some 0 → pageOf q = 1)
    ∧ (∀ n : Int, parseInt q.page = some n → n ≠ 0 → pageOf q = n)
    ∧ ((¬ ∃ n : Int, parseInt q.page = some n ∧ n < 0) → 1 ≤ pageOf q)
    ∧ (q.limit = none → limitOf q = 10)
    ∧ (parseInt q.limit = none → limitOf q = 10)
    ∧ (parseInt q.limit = some 0 → limitOf q = 10)
    ∧ (∀ n : Int, parseInt q.limit = some n → n ≠ 0 → limitOf q = n)
    ∧ skipOf q = (pageOf q - 1) * limitOf q
    ∧ (getAllRooms db q).calls
      = [.addRoomCountDocuments (buildFilter q),
          .addRoomFind (buildFilter q) ((pageOf q - 1) * limitOf q) (limitOf q)] := by
  refine ⟨?_, ?_, ?_, ?_, ?_, ?_, ?_, ?_, ?_, rfl, ?_⟩
  · intro h
    simp only [pageOf, h]
    rfl
  · intro h
    simp [pageOf, numOr, h]
  · intro h
    simp [pageOf, numOr, h]
  · intro n h hn
    simp [pageOf, numOr, h, hn]
  · intro h
    unfold pageOf numOr
    cases hq : parseInt q.page with
    | none => simp
    | some n =>
      have hn : ¬ n < 0 := fun hlt => h ⟨n, hq, hlt⟩
      by_cases h0 : n = 0
      · simp [h0]
      · simp only [h0, if_false]
        omega
  · intro h
    simp only [limitOf, h]
    rfl
  · intro h
    simp [limitOf, numOr, h]
  · intro h
    simp [limitOf, numOr, h]
  · intro n h hn
    simp [limitOf, numOr, h, hn]
  · dsimp only [getAllRooms, skipOf]
    split <;> rfl

/-- C7 amended, on the query page=0 and limit=abc: page 1 and limit 10 are used. -/
theorem getAllRooms_page_and_limit_used_witness :
    pageOf { Query.empty with page := some "0", limit := some "abc" } = 1
    ∧ limitOf { Query.empty with page := some "0", limit := some "abc" } = 10 :=
  have t := getAllRooms_page_and_limit_used sampleDb
    { Query.empty with page := some "0", limit := some "abc" }
  ⟨t.2.2.1 rfl, t.2.2.2.2.2.2.1 rfl⟩

/-- C9, refuted as stated: with MAX_FILE_UPLOAD set to 1000000 an image of
1500000 bytes, which is below the 2MB limit for images, and a video of 1500000
bytes, which is below the 50MB limit for videos, are both answered with 400: the
two handlers compare the size with the same setting. -/
theorem upload_shared_setting_counterexample :
    1500000 ≤ maxImageSize
    ∧ postUploadImage ⟨"1000000", some 1000000⟩ (some ⟨"images", "room.png", 1500000⟩)
        1700000000000
      = .json 400 (.message "Please upload an image smaller than 1000000 bytes")
    ∧ 1500000 ≤ maxVideoSize
    ∧ postUploadVideo ⟨"1000000", some 1000000⟩ (some ⟨"videos", "tour.mp4", 1500000⟩)
        1700000000000
      = .json 400 (.message "Please upload a video smaller than 1000000 bytes") := by
  refine ⟨by decide, rfl, by decide, rfl⟩

/-- C9, amended: a request without a file is answered with 400 by either handler.
A file part in the expected field and with an allowed extension that is larger
than the limit of the upload middleware for its kind (2MB for images, 50MB for
videos, two different values) is refused by the middleware before the handler
runs.  A part within that limit is stored and reaches the handler, which answers
400 when the size exceeds MAX_FILE_UPLOAD, one setting compared by both handlers
and never exceeded when it is unset or not a number, and answers 200 with the
stored file name otherwise. -/
theorem upload_outcomes (env : MaxFileUpload) (now : Nat) :
    uploadRoomImage env none = .json 400 (.message "Please upload an image file")
    ∧ uploadRoomVideo env none = .json 400 (.message "Please upload a video file")
    ∧ postUploadImage env none now = .json 400 (.message "Please upload an image file")
    ∧ postUploadVideo env none now = .json 400 (.message "Please upload a video file")
    ∧ maxImageSize = 2097152 ∧ maxVideoSize = 52428800 ∧ maxImageSize ≠ maxVideoSize
    ∧ (∀ part : FilePart, part.fieldname = "images" → imageTypes part.originalname = true →
        (maxImageSize < part.size → postUploadImage env (some part) now = .thrown "LIMIT_FILE_SIZE")
        ∧ (part.size ≤ maxImageSize →
            postUploadImage env (some part) now
              = uploadRoomImage env (some ⟨storageFilename part now, part.size⟩)))
    ∧ (∀ part : FilePart, part.fieldname = "videos" → videoTypes part.originalname = true →
        (maxVideoSize < part.size → postUploadVideo env (some part) now = .thrown "LIMIT_FILE_SIZE")
        ∧ (part.size ≤ maxVideoSize →
            postUploadVideo env (some part) now
              = uploadRoomVideo env (some ⟨storageFilename part now, part.size⟩)))
    ∧ (∀ (f : FileMeta) (m : Int), env.number = some m → m < (f.size : Int) →
        uploadRoomImage env (some f)
          = .json 400 (.message ("Please upload an image smaller than " ++ env.text ++ " bytes"))
        ∧ uploadRoomVideo env (some f)
          = .json 400 (.message ("Please upload a video smaller than " ++ env.text ++ " bytes")))
    ∧ (∀ f : FileMeta, (env.number = none ∨ ∃ m, env.number = some m ∧ (f.size : Int) ≤ m) →
        uploadRoomImage env (some f) = .json 200 (.file f.filename "Image uploaded successfully")
        ∧ uploadRoomVideo env (some f)
          = .json 200 (.file f.filename "Video uploaded successfully")) := by
  refine ⟨rfl, rfl, rfl, rfl, by decide, by decide, by decide, ?_, ?_, ?_, ?_⟩
  · intro part hf ht
    have hfilter : fileFilter part = none := by simp [fileFilter, hf, ht]
    refine ⟨?_, ?_⟩
    · intro hsize
      simp [postUploadImage, uploadImage, multerSingle, hf, hfilter, hsize]
    · intro hsize
      have : ¬ maxImageSize < part.size := by omega
      simp [postUploadImage, uploadImage, multerSingle, hf, hfilter, this]
  · intro part hf ht
    have hfilter : fileFilter part = none := by simp [fileFilter, hf, ht]
    refine ⟨?_, ?_⟩
    · intro hsize
      simp [postUploadVideo, uploadVideo, multerSingle, hf, hfilter, hsize]
    · intro hsize
      have : ¬ maxVideoSize < part.size := by omega
      simp [postUploadVideo, uploadVideo, multerSingle, hf, hfilter, this]
  · intro f m hm hlt
    simp [uploadRoomImage, uploadRoomVideo, exceedsMaxFileUpload, hm, hlt]
  · intro f h
    rcases h with h | ⟨m, hm, hle⟩
    · simp [uploadRoomImage, uploadRoomVideo, exceedsMaxFileUpload, h]
    · have : ¬ m < (f.size : Int) := by omega
      simp [uploadRoomImage, uploadRoomVideo, exceedsMaxFileUpload, hm, this]

/-- C9 amended, on an image of 1000 bytes with MAX_FILE_UPLOAD at 1000000: the file
is stored under its generated name and the handler returns that name. -/
theorem upload_outcomes_witness :
    postUploadImage ⟨"1000000", some 1000000⟩ (some ⟨"images", "room.png", 1000⟩) 1700000000000
      = .json 200 (.file "room-img-1700000000000.png" "Image uploaded successfully") :=
  have t := upload_outcomes ⟨"1000000", some 1000000⟩ 1700000000000
  ((t.2.2.2.2.2.2.2.1 ⟨"images", "room.png", 1000⟩ rfl rfl).2 (by decide)).trans
    ((t.2.2.2.2.2.2.2.2.2.2 ⟨"room-img-1700000000000.png", 1000⟩
      (Or.inr ⟨1000000, rfl, by decide⟩)).1)

/-- What rdropWhile cuts off is a run of elements satisfying the predicate. -/
theorem rdropWhile_append_rest (p : Char → Bool) (l : List Char) :
    ∃ post, l = l.rdropWhile p ++ post ∧ ∀ c ∈ post, p c = true := by
  induction l using List.reverseRecOn with
  | nil => exact ⟨[], by simp, by simp⟩
  | append_singleton l x ih =>
    obtain ⟨post, h1, h2⟩ := ih
    by_cases hx : p x = true
    · refine ⟨post ++ [x], ?_, ?_⟩
      · rw [List.rdropWhile_concat_pos _ _ _ hx, ← List.append_assoc, ← h1]
      · intro c hc
        rcases List.mem_append.1 hc with hc | hc
        · exact h2 c hc
        · simp only [List.mem_singleton] at hc
          rw [hc]; exact hx
    · exact ⟨[], by rw [List.rdropWhile_concat_neg _ _ _ hx]; simp, by simp⟩

/-- The result of trim is the input without a leading and a trailing run of white
space, and it neither starts nor ends with white space. -/
theorem trimChars_spec (cs : List Char) :
    (∃ pre post, cs = pre ++ trimChars cs ++ post
      ∧ (∀ c ∈ pre, isWhiteSpace c = true) ∧ (∀ c ∈ post, isWhiteSpace c = true))
    ∧ (∀ c, (trimChars cs).head? = some c → isWhiteSpace c = false)
    ∧ (∀ c, (trimChars cs).getLast? = some c → isWhiteSpace c = false) := by
  obtain ⟨post, h1, h2⟩ := rdropWhile_append_rest isWhiteSpace (cs.dropWhile isWhiteSpace)
  refine ⟨⟨cs.takeWhile isWhiteSpace, post, ?_, ?_, h2⟩, ?_, ?_⟩
  · unfold trimChars
    rw [List.append_assoc, ← h1, List.takeWhile_append_dropWhile]
  · intro c hc
    exact List.mem_takeWhile_imp hc
  · intro c hc
    have hne : trimChars cs ≠ [] := by
      intro h; rw [h] at hc; cases hc
    have hd := List.head?_dropWhile_not isWhiteSpace cs
    have hhead : (cs.dropWhile isWhiteSpace).head? = some c := by
      unfold trimChars at hc hne
      rw [h1]
      cases ht : (cs.dropWhile isWhiteSpace).rdropWhile isWhiteSpace with
      | nil => exact absurd ht hne
      | cons a rest =>
        rw [ht] at hc
        simpa using hc
    rw [hhead] at hd
    exact hd
  · intro c hc
    have hne : (cs.dropWhile isWhiteSpace).rdropWhile isWhiteSpace ≠ [] := by
      intro h; unfold trimChars at hc; rw [h] at hc; cases hc
    have hl := List.rdropWhile_last_not isWhiteSpace (cs.dropWhile isWhiteSpace) hne
    unfold trimChars at hc
    rw [List.getLast?_eq_getLast _ hne] at hc
    injection hc with hc
    rw [← hc]
    simpa using hl

/-- C10, refuted as stated: a status that is supplied but falsy, the empty string
or the number 0, is not the status of the record submitted to the store; that
record has status "active", whatever the ODM and the registry. -/
theorem createRoomType_falsy_status_counterexample :
    (∀ (odm : Odm) (db : Db),
      (createRoomType odm db ⟨.str "Loft", .str ""⟩ type2 3).calls
        = [.roomTypeCreate ⟨"Loft", .str "active"⟩]
      ∧ (createRoomType odm db ⟨.str "Loft", .num 0⟩ type2 3).calls
        = [.roomTypeCreate ⟨"Loft", .str "active"⟩])
    ∧ (createRoomType Odm.lenient { sampleDb with roomTypes := [] }
        ⟨.str "Loft", .str ""⟩ type2 3).db.roomTypes
      = [⟨type2, "Loft", .str "active", 3⟩]
    ∧ JsVal.str "active" ≠ JsVal.str "" ∧ JsVal.str "active" ≠ JsVal.num 0 := by
  refine ⟨?_, rfl, ?_, ?_⟩
  · intro odm db
    refine ⟨?_, ?_⟩
    · show (match RoomType.create odm db.roomTypes ⟨"Loft", .str "active"⟩ type2 3 with
        | .error e => (⟨.thrown e, db, [.roomTypeCreate ⟨"Loft", .str "active"⟩]⟩ : Result)
        | .ok (roomType, roomTypes) =>
          ⟨.json 201 (.roomType roomType), { db with roomTypes := roomTypes },
            [.roomTypeCreate ⟨"Loft", .str "active"⟩]⟩).calls = _
      split <;> rfl
    · show (match RoomType.create odm db.roomTypes ⟨"Loft", .str "active"⟩ type2 3 with
        | .error e => (⟨.thrown e, db, [.roomTypeCreate ⟨"Loft", .str "active"⟩]⟩ : Result)
        | .ok (roomType, roomTypes) =>
          ⟨.json 201 (.roomType roomType), { db with roomTypes := roomTypes },
            [.roomTypeCreate ⟨"Loft", .str "active"⟩]⟩).calls = _
      split <;> rfl
  · intro h
    injection h with h
    exact absurd h (by decide)
  · intro h; cases h

/-- C10, amended: createRoomType answers 400, calls no collaborator and leaves the
state unchanged when the name is missing, the empty string or not a string.  For
any other name, a non-empty string, its only collaborator call is RoomType.create
with the trimmed name (the name without a leading and a trailing run of white
space, neither starting nor ending with white space) and with the supplied
status when that status is truthy, "active" when it is absent or falsy. -/
theorem createRoomType_submitted_record (odm : Odm) (db : Db) (body : RoomTypeBody)
    (fresh : ObjectId) (now : Nat) :
    ((body.typeName = .undefined ∨ body.typeName = .str "" ∨ body.typeName.isString = false) →
      createRoomType odm db body fresh now
        = ⟨.json 400 (.failure "Room type name is required"), db, []⟩)
    ∧ (∀ name : String, body.typeName = .str name → name ≠ "" →
        (createRoomType odm db body fresh now).calls
          = [.roomTypeCreate
              ⟨trim name, if body.status.truthy then body.status else .str "active"⟩]
        ∧ (body.status = .undefined →
            (createRoomType odm db body fresh now).calls
              = [.roomTypeCreate ⟨trim name, .str "active"⟩])
        ∧ (∃ pre post, name.data = pre ++ (trim name).data ++ post
            ∧ (∀ c ∈ pre, isWhiteSpace c = true) ∧ (∀ c ∈ post, isWhiteSpace c = true))
        ∧ (∀ c, (trim name).data.head? = some c → isWhiteSpace c = false)
        ∧ (∀ c, (trim name).data.getLast? = some c → isWhiteSpace c = false)) := by
  refine ⟨?_, ?_⟩
  · rintro (h | h | h)
    · simp [createRoomType, h, JsVal.truthy]
    · simp [createRoomType, h, JsVal.truthy]
    · simp [createRoomType, h]
  · intro name hname hne
    have hdata : name.data ≠ [] := by
      intro h
      apply hne
      exact String.ext h
    have ht : (JsVal.str name).truthy = true := by
      simpa [JsVal.truthy] using hdata
    have hcalls : (createRoomType odm db body fresh now).calls
        = [.roomTypeCreate
            ⟨trim name, if body.status.truthy then body.status else .str "active"⟩] := by
      obtain ⟨typeName, status⟩ := body
      simp only at hname
      subst hname
      simp only [createRoomType, ht, JsVal.isString, JsVal.or, Bool.not_true, Bool.or_self,
        Bool.false_eq_true, if_false]
      split <;> rfl
    refine ⟨hcalls, ?_, (trimChars_spec name.data).1, (trimChars_spec name.data).2.1,
      (trimChars_spec name.data).2.2⟩
    intro hs
    rw [hcalls, hs]
    rfl

/-- C10 amended, on the name "  Studio " with the status "inactive": the record
submitted has the name "Studio" and the status "inactive". -/
theorem createRoomType_submitted_record_witness :
    (createRoomType Odm.lenient sampleDb ⟨.str "  Studio ", .str "inactive"⟩ type2 3).calls
      = [.roomTypeCreate ⟨"Studio", .str "inactive"⟩] :=
  ((createRoomType_submitted_record Odm.lenient sampleDb ⟨.str "  Studio ", .str "inactive"⟩
    type2 3).2 "  Studio " rfl (by decide)).1

end AppBackend
